import Mathlib

/-!
Verification of the criteria evaluation and scoring engine of
rt_agent_readiness.py: the unit-to-criterion reduction rule, pillar and
level score aggregation, gated level progression, and the recommendation
selectors, together with the CI-gating and health-check criterion logic.
Machine integers are modelled as Nat/Int; Python dict grouping is modelled
by per-key counting; Python string containment by char-list inclusion.
-/

namespace AgentReadiness

/-- Verdict of one evaluation: the strings "pass", "fail", "skip" in the
source. -/
inductive Status where
  | pass
  | fail
  | skip
deriving DecidableEq

/-- EvalUnitResult dataclass: outcome of one criterion on one unit. -/
structure EvalUnitResult where
  unit : String
  status : Status
  reason : String
  evidence : List String
deriving DecidableEq

/-- CriterionResult dataclass: aggregation of all unit results of one
criterion. -/
structure CriterionResult where
  id : String
  title : String
  pillar : String
  level : Nat
  scope : String
  weight : Nat
  numerator : Nat
  denominator : Nat
  status : Status
  reason : String
  remediation : String
  why : String
  unitResults : List EvalUnitResult
deriving DecidableEq

/-- App dataclass: one discovered sub-project. -/
structure App where
  path : String
  kind : String
  name : String
  description : String
deriving DecidableEq

/-- One catalog entry (the source keeps these as dicts with keys id, title,
pillar, level, scope, weight, why, remediation). -/
structure Criterion where
  id : String
  title : String
  pillar : String
  level : Nat
  scope : String
  weight : Nat
  why : String
  remediation : String
deriving DecidableEq

/-- The helper _make_unit. -/
def makeUnit (unit : String) (status : Status) (reason : String)
    (evidence : List String) : EvalUnitResult :=
  ⟨unit, status, reason, evidence⟩

/-- _criterion_status_from_units: reduce unit results to
(numerator, denominator, status). -/
def criterionStatusFromUnits (units : List EvalUnitResult) :
    Nat × Nat × Status :=
  let denom := units.countP fun u =>
    u.status == Status.pass || u.status == Status.fail
  let num := units.countP fun u => u.status == Status.pass
  if denom = 0 then (0, 0, Status.skip)
  else if num = denom then (num, denom, Status.pass)
  else (num, denom, Status.fail)

/-- The aggregate-reason selection inside evaluate_all: first passing
reason on pass, first failing reason on fail, first unit reason on skip. -/
def aggregateReason (status : Status) (units : List EvalUnitResult) :
    String :=
  match status with
  | Status.pass =>
      match units.find? (fun u => u.status == Status.pass) with
      | some u => u.reason
      | none => ""
  | Status.fail =>
      match units.find? (fun u => u.status == Status.fail) with
      | some u => u.reason
      | none => "One or more units failed."
  | Status.skip =>
      match units.head? with
      | some u => u.reason
      | none => "Skipped."

/-- The unit results gathered for one catalog entry: the repo evaluator
once for scope repo, the app evaluator per discovered app for scope app,
and a defensive skip for an unknown scope. -/
def unitsForCriterion (evalRepo : String → List EvalUnitResult)
    (evalApp : App → String → EvalUnitResult)
    (apps : List App) (c : Criterion) : List EvalUnitResult :=
  if c.scope = "repo" then evalRepo c.id
  else if c.scope = "app" then apps.map fun a => evalApp a c.id
  else [makeUnit "repo" Status.skip ("Unknown scope: " ++ c.scope) []]

/-- The loop body of evaluate_all: evaluate one catalog entry and reduce
its unit results into a CriterionResult. -/
def buildCriterionResult (evalRepo : String → List EvalUnitResult)
    (evalApp : App → String → EvalUnitResult)
    (apps : List App) (c : Criterion) : CriterionResult :=
  let unitResults := unitsForCriterion evalRepo evalApp apps c
  let nds := criterionStatusFromUnits unitResults
  { id := c.id, title := c.title, pillar := c.pillar, level := c.level,
    scope := c.scope, weight := c.weight,
    numerator := nds.1, denominator := nds.2.1, status := nds.2.2,
    reason := aggregateReason nds.2.2 unitResults,
    remediation := c.remediation, why := c.why,
    unitResults := unitResults }

/-- evaluate_all: build one CriterionResult per catalog entry.  The two
per-criterion evaluators (evaluate_criterion_repo and
evaluate_criterion_app) are passed in as capabilities; the source calls
them directly. -/
def evaluateAll (evalRepo : String → List EvalUnitResult)
    (evalApp : App → String → EvalUnitResult)
    (apps : List App) (criteria : List Criterion) : List CriterionResult :=
  criteria.map (buildCriterionResult evalRepo evalApp apps)

/-- The percentage round((passed / total) * 100).  Python round is
round-half-to-even; here it is modelled as exact rational
round-half-to-even on integers.  The float expression of the source agrees
with this model for every passed ≤ total ≤ 39 (checked exhaustively), and
the catalog caps pillar sizes at 10 and level sizes at 21, so the model is
exact on the reachable domain; the first divergent pair is
passed = 23, total = 40, where the float product 57.499999999999993 hides
the rational tie. -/
def pctRound (passed total : Nat) : Nat :=
  if 2 * (100 * passed % total) < total then 100 * passed / total
  else if total < 2 * (100 * passed % total) then 100 * passed / total + 1
  else if (100 * passed / total) % 2 = 0 then 100 * passed / total
  else 100 * passed / total + 1

/-- One entry of compute_pillar_scores. -/
structure PillarScore where
  pillar : String
  passed : Nat
  total : Nat
  percent : Nat
deriving DecidableEq

/-- One entry of compute_level_scores. -/
structure LevelScore where
  level : Nat
  passed : Nat
  total : Nat
  percent : Nat
deriving DecidableEq

/-- Passing criteria of one pillar (skips never have status pass). -/
def pillarPassCount (rs : List CriterionResult) (p : String) : Nat :=
  rs.countP fun r => r.pillar == p && r.status == Status.pass

/-- Non-skipped criteria of one pillar. -/
def pillarTotalCount (rs : List CriterionResult) (p : String) : Nat :=
  rs.countP fun r => r.pillar == p && !(r.status == Status.skip)

/-- pct = round((passed / total) * 100) if total else 0. -/
def pillarPercent (rs : List CriterionResult) (p : String) : Nat :=
  if pillarTotalCount rs p = 0 then 0
  else pctRound (pillarPassCount rs p) (pillarTotalCount rs p)

/-- Final ordering of compute_pillar_scores: percent descending, then
pillar name ascending (the sort key (-percent, pillar)). -/
def pillarScoreLE (a b : PillarScore) : Bool :=
  if a.percent = b.percent then decide (a.pillar ≤ b.pillar)
  else decide (b.percent < a.percent)

/-- compute_pillar_scores: group non-skipped results by pillar (every
occurring pillar gets an entry, even if all its criteria were skipped),
emit entries over the sorted key set, then sort by (-percent, pillar).
The dict accumulation is modelled by counting per key. -/
def computePillarScores (rs : List CriterionResult) : List PillarScore :=
  let names :=
    ((rs.map fun r => r.pillar).dedup).mergeSort fun a b => decide (a ≤ b)
  let out := names.map fun p =>
    PillarScore.mk p (pillarPassCount rs p) (pillarTotalCount rs p)
      (pillarPercent rs p)
  out.mergeSort pillarScoreLE

/-- Passing criteria of one level. -/
def levelPassCount (rs : List CriterionResult) (l : Nat) : Nat :=
  rs.countP fun r => r.level == l && r.status == Status.pass

/-- Non-skipped criteria of one level. -/
def levelTotalCount (rs : List CriterionResult) (l : Nat) : Nat :=
  rs.countP fun r => r.level == l && !(r.status == Status.skip)

/-- pct = round((passed / total) * 100) if total else 0. -/
def levelPercent (rs : List CriterionResult) (l : Nat) : Nat :=
  if levelTotalCount rs l = 0 then 0
  else pctRound (levelPassCount rs l) (levelTotalCount rs l)

/-- compute_level_scores: one entry per level 1..5 in order. -/
def computeLevelScores (rs : List CriterionResult) : List LevelScore :=
  [1, 2, 3, 4, 5].map fun l =>
    LevelScore.mk l (levelPassCount rs l) (levelTotalCount rs l)
      (levelPercent rs l)

/-- The scores dict lookup inside compute_level_achieved.  The source
builds a dict keyed by level; as used it always finds the key, so the
default branch is unreachable there. -/
def levelLookup (scores : List LevelScore) (l : Nat) : LevelScore :=
  (scores.find? fun s => s.level == l).getD (LevelScore.mk l 0 0 0)

/-- The for-loop of compute_level_achieved with its two break points. -/
def gateLoop (scores : List LevelScore) : Nat → List Nat → Nat
  | achieved, [] => achieved
  | achieved, prev :: rest =>
      let s := levelLookup scores prev
      if s.total = 0 then achieved
      else if 80 ≤ s.percent then gateLoop scores (prev + 1) rest
      else achieved

/-- compute_level_achieved: gated progression over levels 1..4, starting
from achieved = 1. -/
def computeLevelAchieved (scores : List LevelScore) : Nat :=
  gateLoop scores 1 [1, 2, 3, 4]

/-- The pipeline compute_level_achieved(compute_level_scores(results)). -/
def levelAchievedOf (rs : List CriterionResult) : Nat :=
  computeLevelAchieved (computeLevelScores rs)

/-- The sort key (-weight, level, pillar, id) of pick_opportunities,
compared lexicographically as Python compares key tuples. -/
def oppKey (r : CriterionResult) : Int ×ₗ (Nat ×ₗ (String ×ₗ String)) :=
  toLex (-(r.weight : Int), toLex (r.level, toLex (r.pillar, r.id)))

/-- Boolean comparison by the opportunities sort key. -/
def oppLE (a b : CriterionResult) : Bool := decide (oppKey a ≤ oppKey b)

/-- pick_opportunities: failing criteria sorted by
(-weight, level, pillar, id), truncated to the top n. -/
def pickOpportunities (rs : List CriterionResult) (n : Nat) :
    List CriterionResult :=
  ((rs.filter fun r => r.status == Status.fail).mergeSort oppLE).take n

/-- One emitted action item (the dict built by pick_action_items). -/
structure ActionItem where
  criterionId : String
  title : String
  pillar : String
  why : String
  remediation : String
deriving DecidableEq

/-- The projection of a criterion result into an action item. -/
def toActionItem (r : CriterionResult) : ActionItem :=
  ⟨r.id, r.title, r.pillar, r.why, r.remediation⟩

/-- The sort key (-weight, pillar, id) of pick_action_items. -/
def actionKey (r : CriterionResult) : Int ×ₗ (String ×ₗ String) :=
  toLex (-(r.weight : Int), toLex (r.pillar, r.id))

/-- Boolean comparison by the action-items sort key. -/
def actionLE (a b : CriterionResult) : Bool :=
  decide (actionKey a ≤ actionKey b)

/-- pick_action_items: empty at achieved level 5 and above; otherwise the
failing criteria of the blocking level (the achieved level itself), sorted
by (-weight, pillar, id), truncated to the top n and projected. -/
def pickActionItems (rs : List CriterionResult) (levelAchieved n : Nat) :
    List ActionItem :=
  if 5 ≤ levelAchieved then []
  else
    let candidates := rs.filter fun r =>
      r.level == levelAchieved && r.status == Status.fail
    (((candidates.mergeSort actionLE).take n).map toActionItem)

/-- Python substring membership: needle in haystack. -/
def strContains (hay needle : String) : Bool :=
  decide (needle.toList <:+: hay.toList)

/-- Python str.lower, applied per character (every text these criteria
lower is ASCII, where the two notions of lowercasing agree).  Defined by
a plain list map so that it evaluates inside the kernel. -/
def lowerStr (s : String) : String := String.mk (s.data.map Char.toLower)

/-- The filesystem evidence consumed by the repo-scoped criteria modelled
here.  githubWorkflows is none when the .github/workflows directory does
not exist, otherwise the (name, text) pairs of its yaml files; coveragerc
is the text of .coveragerc when that file exists; docsExisting states
whether any of README.md, AGENTS.md, CONTRIBUTING.md exists;
gitLastDocTimestamp is the last-commit epoch of those files, none when
git gave no usable answer. -/
structure RepoFS where
  githubWorkflows : Option (List (String × String))
  gitlabCI : Bool
  azurePipelines : Bool
  coveragerc : Option String
  docsExisting : Bool
  gitLastDocTimestamp : Option Int
deriving DecidableEq

/-- _has_ci: any of .github/workflows, .gitlab-ci.yml,
azure-pipelines.yml. -/
def hasCI (fs : RepoFS) : Bool :=
  fs.githubWorkflows.isSome || fs.gitlabCI || fs.azurePipelines

/-- _workflow_text_contains: some workflow file whose lowered text holds
every lowered needle; false when the workflows directory is absent. -/
def workflowTextContains (fs : RepoFS) (needles : List String) : Bool :=
  match fs.githubWorkflows with
  | none => false
  | some wfs => wfs.any fun wf =>
      needles.all fun n => strContains (lowerStr wf.2) (lowerStr n)

/-- _has_ci_lint_job. -/
def hasCILintJob (fs : RepoFS) : Bool := workflowTextContains fs ["lint"]

/-- _has_ci_test_job. -/
def hasCITestJob (fs : RepoFS) : Bool := workflowTextContains fs ["test"]

/-- The pattern list of _has_coverage_tracking. -/
def coveragePatterns : List String :=
  ["codecov", "coveralls", "coverage", "pytest --cov", "go test", "nyc",
   "istanbul"]

/-- _has_coverage_tracking: a coverage pattern in some workflow file, or a
.coveragerc file. -/
def hasCoverageTracking (fs : RepoFS) : Bool :=
  (match fs.githubWorkflows with
   | none => false
   | some wfs => wfs.any fun wf =>
       coveragePatterns.any fun p => strContains (lowerStr wf.2) p)
  || fs.coveragerc.isSome

/-- _documentation_freshness: age of the docs files against the current
clock, via git; int() of the float quotient truncates toward zero,
modelled by Int.tdiv. -/
def documentationFreshness (fs : RepoFS) (now : Int) (days : Int) :
    Bool × String :=
  if !fs.docsExisting then
    (false, "No README/AGENTS/CONTRIBUTING files found to evaluate freshness.")
  else
    match fs.gitLastDocTimestamp with
    | none => (false, "Unable to evaluate freshness (git history unavailable).")
    | some ts =>
        let ageDays : Int := Int.tdiv (now - ts) 86400
        if ageDays ≤ days then
          (true, "Docs updated " ++ toString ageDays ++ " days ago (≤ " ++
            toString days ++ ").")
        else
          (false, "Docs updated " ++ toString ageDays ++ " days ago (> " ++
            toString days ++ ").")

/-- The branches of evaluate_criterion_repo for the criteria analysed
here (ci_configured, ci_lint_job, ci_test_job, coverage_tracking,
docs_freshness); the remaining branches are not modelled and return
none.  now is the wall clock read by the docs-freshness probe. -/
def evaluateCriterionRepoM (fs : RepoFS) (now : Int) (critId : String) :
    Option (List EvalUnitResult) :=
  if critId = "ci_configured" then
    if hasCI fs then
      let evidence :=
        (if fs.githubWorkflows.isSome then [".github/workflows/"] else [])
        ++ (if fs.gitlabCI then [".gitlab-ci.yml"] else [])
        ++ (if fs.azurePipelines then ["azure-pipelines.yml"] else [])
      some [makeUnit "repo" Status.pass "CI configuration detected." evidence]
    else some [makeUnit "repo" Status.fail "No CI configuration detected." []]
  else if critId = "ci_lint_job" then
    if !hasCI fs then
      some [makeUnit "repo" Status.skip
        "CI not detected; cannot evaluate lint job." []]
    else if hasCILintJob fs then
      some [makeUnit "repo" Status.pass "CI appears to run lint/validation."
        [".github/workflows/*"]]
    else
      some [makeUnit "repo" Status.fail
        "CI detected, but no obvious lint job found."
        (if fs.githubWorkflows.isSome then [".github/workflows/*"] else [])]
  else if critId = "ci_test_job" then
    if !hasCI fs then
      some [makeUnit "repo" Status.skip
        "CI not detected; cannot evaluate test job." []]
    else if hasCITestJob fs then
      some [makeUnit "repo" Status.pass "CI appears to run tests."
        [".github/workflows/*"]]
    else
      some [makeUnit "repo" Status.fail
        "CI detected, but no obvious test job found."
        (if fs.githubWorkflows.isSome then [".github/workflows/*"] else [])]
  else if critId = "coverage_tracking" then
    if hasCoverageTracking fs then
      some [makeUnit "repo" Status.pass
        "Coverage tracking evidence found (CI/config)."
        [".github/workflows/*", ".coveragerc"]]
    else if !hasCI fs then
      some [makeUnit "repo" Status.skip
        "CI not detected; coverage tracking unclear." []]
    else
      some [makeUnit "repo" Status.fail
        "No coverage tracking evidence found in CI/config."
        (if fs.githubWorkflows.isSome then [".github/workflows/*"] else [])]
  else if critId = "docs_freshness" then
    let r := documentationFreshness fs now 180
    if r.1 then
      some [makeUnit "repo" Status.pass r.2
        ["README.md", "AGENTS.md", "CONTRIBUTING.md"]]
    else if strContains (lowerStr r.2) "git history unavailable" then
      some [makeUnit "repo" Status.skip r.2 []]
    else
      some [makeUnit "repo" Status.fail r.2
        ["README.md", "AGENTS.md", "CONTRIBUTING.md"]]
  else none

/-- The health_checks branch of evaluate_criterion_app.  The probe
_has_health_checks is a filesystem scan supplied here as a capability
result, per the evidence-probe interface; the claim holds for either
value. -/
def evaluateHealthChecks (app : App) (hasHealth : Bool) : EvalUnitResult :=
  if (app.kind == "python" || app.kind == "node")
      && strContains (lowerStr app.description) "library" then
    makeUnit app.path Status.skip
      "App appears to be a library; health checks are inapplicable." []
  else if hasHealth then
    makeUnit app.path Status.pass
      "Health/readiness signals detected (best-effort)." []
  else
    makeUnit app.path Status.skip
      "No health-check signals detected; may be inapplicable for non-service repos."
      []

/-! Concrete inputs used by the witness theorems. -/

/-- A repo evaluator returning a single passing unit. -/
def wRepoEval : String → List EvalUnitResult :=
  fun _ => [makeUnit "repo" Status.pass "ok" []]

/-- An app evaluator passing the first app and failing others. -/
def wAppEval : App → String → EvalUnitResult :=
  fun a _ =>
    if a.path = "apps/a" then makeUnit a.path Status.pass "lockfile" []
    else makeUnit a.path Status.fail "no lockfile" []

/-- Two discovered apps, one passing and one failing under wAppEval. -/
def wApps : List App :=
  [App.mk "apps/a" "python" "a" "service",
   App.mk "apps/b" "node" "b" "service"]

/-- An app-scoped catalog entry. -/
def wCrit : Criterion :=
  Criterion.mk "deps_pinned" "Dependencies pinned" "Build System" 1 "app" 3
    "why" "fix"

/-- The criterion result of wCrit over wApps. -/
def wResult : CriterionResult :=
  buildCriterionResult wRepoEval wAppEval wApps wCrit

/-- A compact criterion result for scoring examples. -/
def sampleCR (id pillar : String) (lvl w : Nat) (st : Status) :
    CriterionResult :=
  CriterionResult.mk id ("title " ++ id) pillar lvl "repo" w 0 0 st "" "" "" []

/-- A run where levels 1 to 3 score 100 percent and level 4 scores 40
percent: achieved level 4. -/
def wLevels : List CriterionResult :=
  [sampleCR "a" "P" 1 1 Status.pass,
   sampleCR "b" "P" 2 1 Status.pass,
   sampleCR "c" "P" 3 1 Status.pass,
   sampleCR "d" "P" 4 1 Status.pass,
   sampleCR "e" "P" 4 1 Status.pass,
   sampleCR "f" "P" 4 1 Status.fail,
   sampleCR "g" "P" 4 1 Status.fail,
   sampleCR "h" "P" 4 1 Status.fail]

/-- A repository snapshot with no CI system and no coverage config. -/
def fsNoCI : RepoFS := RepoFS.mk none false false none false none

/-- A repository snapshot whose docs were last committed at epoch 0. -/
def fsDocs : RepoFS := RepoFS.mk none false false none true (some 0)

/-! Helper lemmas. -/

/-- A unit status is non-skip exactly when it is pass or fail. -/
lemma countP_nonskip_eq (units : List EvalUnitResult) :
    (units.countP fun u =>
        u.status == Status.pass || u.status == Status.fail) =
      units.countP fun u => !(u.status == Status.skip) := by
  induction units with
  | nil => rfl
  | cons u t ih =>
      simp only [List.countP_cons]
      cases h : u.status <;> simp [h, ih]

/-- The pass count never exceeds the non-skip count. -/
lemma countP_pass_le_nonskip (units : List EvalUnitResult) :
    (units.countP fun u => u.status == Status.pass) ≤
      units.countP fun u =>
        u.status == Status.pass || u.status == Status.fail := by
  induction units with
  | nil => exact Nat.le_refl 0
  | cons u t ih =>
      simp only [List.countP_cons]
      cases h : u.status <;> simp [h] <;> omega

/-- If two pointwise-comparable counts agree, the stronger predicate holds
wherever the weaker one does. -/
lemma countP_eq_forall {α : Type} (p q : α → Bool) (l : List α)
    (hmono : ∀ a ∈ l, p a = true → q a = true)
    (heq : l.countP p = l.countP q) :
    ∀ a ∈ l, q a = true → p a = true := by
  induction l with
  | nil => intro a ha; exact absurd ha (List.not_mem_nil a)
  | cons x t ih =>
      intro a ha hq
      have hmt : ∀ b ∈ t, p b = true → q b = true := fun b hb =>
        hmono b (List.mem_cons_of_mem x hb)
      have hle : t.countP p ≤ t.countP q := List.countP_mono_left hmt
      simp only [List.countP_cons] at heq
      rcases List.mem_cons.mp ha with rfl | hat
      · by_contra hp
        have hp0 : p a = false := Bool.eq_false_iff.mpr hp
        have hq1 : q a = true := hq
        simp [hp0, hq1] at heq
        omega
      · have heq2 : t.countP p = t.countP q := by
          by_cases hpx : p x = true
          · have hqx := hmono x (List.mem_cons_self x t) hpx
            simp [hpx, hqx] at heq
            omega
          · have hpx0 : p x = false := Bool.eq_false_iff.mpr hpx
            by_cases hqx : q x = true
            · simp [hpx0, hqx] at heq
              omega
            · have hqx0 : q x = false := Bool.eq_false_iff.mpr hqx
              simp [hpx0, hqx0] at heq
              omega
        exact ih hmt heq2 a hat hq

/-- The numerator component of the reduction is the pass count. -/
lemma csfu_num (units : List EvalUnitResult) :
    (criterionStatusFromUnits units).1 =
      units.countP fun u => u.status == Status.pass := by
  have hle := countP_pass_le_nonskip units
  simp only [criterionStatusFromUnits]
  split_ifs with h1 h2
  · change 0 = _
    omega
  · rfl
  · rfl

/-- The denominator component of the reduction is the pass-or-fail
count. -/
lemma csfu_denom (units : List EvalUnitResult) :
    (criterionStatusFromUnits units).2.1 =
      units.countP fun u =>
        u.status == Status.pass || u.status == Status.fail := by
  simp only [criterionStatusFromUnits]
  split_ifs with h1 h2
  · change 0 = _
    omega
  · rfl
  · rfl

/-- The status component of the reduction, spelled out on the counts. -/
lemma csfu_status (units : List EvalUnitResult) :
    (criterionStatusFromUnits units).2.2 =
      (if (units.countP fun u =>
            u.status == Status.pass || u.status == Status.fail) = 0 then
        Status.skip
      else if (units.countP fun u => u.status == Status.pass) =
          (units.countP fun u =>
            u.status == Status.pass || u.status == Status.fail) then
        Status.pass
      else Status.fail) := by
  simp only [criterionStatusFromUnits]
  split_ifs <;> rfl

lemma le_pctRound (p t : Nat) : 100 * p / t ≤ pctRound p t := by
  unfold pctRound
  split_ifs <;> omega

lemma pctRound_le (p t : Nat) : pctRound p t ≤ 100 * p / t + 1 := by
  unfold pctRound
  split_ifs <;> omega

lemma pctRound_mono {p q t : Nat} (h : p ≤ q) :
    pctRound p t ≤ pctRound q t := by
  have hn : 100 * p ≤ 100 * q := Nat.mul_le_mul_left 100 h
  have hq : 100 * p / t ≤ 100 * q / t := Nat.div_le_div_right hn
  rcases Nat.lt_or_ge (100 * p / t) (100 * q / t) with hlt | hge
  · calc pctRound p t ≤ 100 * p / t + 1 := pctRound_le p t
      _ ≤ 100 * q / t := hlt
      _ ≤ pctRound q t := le_pctRound q t
  · have heq : 100 * p / t = 100 * q / t := Nat.le_antisymm hq hge
    have e1 : t * (100 * p / t) + 100 * p % t = 100 * p :=
      Nat.div_add_mod (100 * p) t
    have e2 : t * (100 * q / t) + 100 * q % t = 100 * q :=
      Nat.div_add_mod (100 * q) t
    rw [← heq] at e2
    have hr : 100 * p % t ≤ 100 * q % t := by omega
    unfold pctRound
    rw [heq]
    split_ifs <;> omega

lemma levelLookup_computeLevelScores (rs : List CriterionResult)
    (l : Nat) (hl : l ∈ ([1, 2, 3, 4, 5] : List Nat)) :
    levelLookup (computeLevelScores rs) l =
      LevelScore.mk l (levelPassCount rs l) (levelTotalCount rs l)
        (levelPercent rs l) := by
  fin_cases hl <;> rfl

/-- computeLevelAchieved over computed level scores as a nested
conditional on the per-level counts. -/
lemma levelAchievedOf_eq (rs : List CriterionResult) :
    levelAchievedOf rs =
      if levelTotalCount rs 1 = 0 then 1
      else if 80 ≤ levelPercent rs 1 then
        if levelTotalCount rs 2 = 0 then 2
        else if 80 ≤ levelPercent rs 2 then
          if levelTotalCount rs 3 = 0 then 3
          else if 80 ≤ levelPercent rs 3 then
            if levelTotalCount rs 4 = 0 then 4
            else if 80 ≤ levelPercent rs 4 then 5
            else 4
          else 3
        else 2
      else 1 := by
  have h1 := levelLookup_computeLevelScores rs 1 (by decide)
  have h2 := levelLookup_computeLevelScores rs 2 (by decide)
  have h3 := levelLookup_computeLevelScores rs 3 (by decide)
  have h4 := levelLookup_computeLevelScores rs 4 (by decide)
  unfold levelAchievedOf computeLevelAchieved
  simp only [gateLoop, h1, h2, h3, h4]

lemma oppLE_trans (a b c : CriterionResult) (hab : oppLE a b = true)
    (hbc : oppLE b c = true) : oppLE a c = true := by
  have h1 := of_decide_eq_true hab
  have h2 := of_decide_eq_true hbc
  exact decide_eq_true (le_trans h1 h2)

lemma oppLE_total (a b : CriterionResult) :
    (oppLE a b || oppLE b a) = true := by
  rcases le_total (oppKey a) (oppKey b) with h | h <;>
    simp [oppLE, h]

lemma actionLE_trans (a b c : CriterionResult) (hab : actionLE a b = true)
    (hbc : actionLE b c = true) : actionLE a c = true := by
  have h1 := of_decide_eq_true hab
  have h2 := of_decide_eq_true hbc
  exact decide_eq_true (le_trans h1 h2)

lemma actionLE_total (a b : CriterionResult) :
    (actionLE a b || actionLE b a) = true := by
  rcases le_total (actionKey a) (actionKey b) with h | h <;>
    simp [actionLE, h]

/-- The key comparison spelled out: weight descending, then level, pillar
name and id ascending. -/
lemma oppLE_iff (a b : CriterionResult) :
    oppLE a b = true ↔
      (b.weight < a.weight ∨ (a.weight = b.weight ∧
        (a.level < b.level ∨ (a.level = b.level ∧
          (a.pillar < b.pillar ∨
            (a.pillar = b.pillar ∧ a.id ≤ b.id)))))) := by
  simp only [oppLE, oppKey, decide_eq_true_eq, Prod.Lex.le_iff,
    Prod.Lex.lt_iff, neg_lt_neg_iff, neg_inj, Nat.cast_lt, Nat.cast_inj]

/-- The key comparison spelled out: weight descending, then pillar name
and id ascending. -/
lemma actionLE_iff (a b : CriterionResult) :
    actionLE a b = true ↔
      (b.weight < a.weight ∨ (a.weight = b.weight ∧
        (a.pillar < b.pillar ∨ (a.pillar = b.pillar ∧ a.id ≤ b.id)))) := by
  simp only [actionLE, actionKey, decide_eq_true_eq, Prod.Lex.le_iff,
    Prod.Lex.lt_iff, neg_lt_neg_iff, neg_inj, Nat.cast_lt, Nat.cast_inj]

lemma build_num (evalRepo : String → List EvalUnitResult)
    (evalApp : App → String → EvalUnitResult)
    (apps : List App) (c : Criterion) :
    (buildCriterionResult evalRepo evalApp apps c).numerator =
      (buildCriterionResult evalRepo evalApp apps c).unitResults.countP
        fun u => u.status == Status.pass := by
  have h2 : (buildCriterionResult evalRepo evalApp apps c).numerator =
      (criterionStatusFromUnits
        (unitsForCriterion evalRepo evalApp apps c)).1 := rfl
  rw [h2, csfu_num]
  rfl

lemma build_denom (evalRepo : String → List EvalUnitResult)
    (evalApp : App → String → EvalUnitResult)
    (apps : List App) (c : Criterion) :
    (buildCriterionResult evalRepo evalApp apps c).denominator =
      (buildCriterionResult evalRepo evalApp apps c).unitResults.countP
        fun u => !(u.status == Status.skip) := by
  have h2 : (buildCriterionResult evalRepo evalApp apps c).denominator =
      (criterionStatusFromUnits
        (unitsForCriterion evalRepo evalApp apps c)).2.1 := rfl
  rw [h2, csfu_denom, countP_nonskip_eq]
  rfl

lemma build_status (evalRepo : String → List EvalUnitResult)
    (evalApp : App → String → EvalUnitResult)
    (apps : List App) (c : Criterion) :
    (buildCriterionResult evalRepo evalApp apps c).status =
      (if (buildCriterionResult evalRepo evalApp apps c).denominator = 0 then
        Status.skip
      else if (buildCriterionResult evalRepo evalApp apps c).numerator =
          (buildCriterionResult evalRepo evalApp apps c).denominator then
        Status.pass
      else Status.fail) := by
  have hs : (buildCriterionResult evalRepo evalApp apps c).status =
      (criterionStatusFromUnits
        (unitsForCriterion evalRepo evalApp apps c)).2.2 := rfl
  have hn : (buildCriterionResult evalRepo evalApp apps c).numerator =
      (criterionStatusFromUnits
        (unitsForCriterion evalRepo evalApp apps c)).1 := rfl
  have hd : (buildCriterionResult evalRepo evalApp apps c).denominator =
      (criterionStatusFromUnits
        (unitsForCriterion evalRepo evalApp apps c)).2.1 := rfl
  rw [hs, hn, hd, csfu_status, csfu_num, csfu_denom]

/-- A non-skip unit status satisfies the boolean non-skip predicate. -/
lemma nonskip_pred_of_ne (u : EvalUnitResult) (h : u.status ≠ Status.skip) :
    (!(u.status == Status.skip)) = true := by
  cases hu : u.status <;> simp_all

/-- A passing unit satisfies the boolean non-skip predicate. -/
lemma pass_pred_imp_nonskip (a : EvalUnitResult)
    (h : (a.status == Status.pass) = true) :
    (!(a.status == Status.skip)) = true := by
  cases hu : a.status <;> simp_all

/-! Claim theorems. -/

/-- Claim C1: every CriterionResult of a run is reduced from its
UnitResults by denominator = count(status not skip), numerator =
count(status pass), status skip when the denominator is 0, pass when the
numerator equals the denominator, fail otherwise; in particular the
criterion passes only when every non-skipped unit passes. -/
theorem criterion_reduction_rule
    (evalRepo : String → List EvalUnitResult)
    (evalApp : App → String → EvalUnitResult)
    (apps : List App) (criteria : List Criterion)
    (r : CriterionResult)
    (hr : r ∈ evaluateAll evalRepo evalApp apps criteria) :
    r.denominator =
        (r.unitResults.countP fun u => !(u.status == Status.skip))
    ∧ r.numerator = (r.unitResults.countP fun u => u.status == Status.pass)
    ∧ r.status = (if r.denominator = 0 then Status.skip
        else if r.numerator = r.denominator then Status.pass
        else Status.fail)
    ∧ (r.status = Status.pass →
        ∀ u ∈ r.unitResults, u.status ≠ Status.skip →
          u.status = Status.pass) := by
  simp only [evaluateAll, List.mem_map] at hr
  obtain ⟨c, hc, rfl⟩ := hr
  refine ⟨build_denom evalRepo evalApp apps c,
    build_num evalRepo evalApp apps c,
    build_status evalRepo evalApp apps c, ?_⟩
  intro hpass u hu hns
  have hs := build_status evalRepo evalApp apps c
  rw [hpass] at hs
  have hd := build_denom evalRepo evalApp apps c
  have hn := build_num evalRepo evalApp apps c
  by_cases h0 :
      (buildCriterionResult evalRepo evalApp apps c).denominator = 0
  · simp [h0] at hs
  · simp only [h0, if_false, if_neg] at hs
    by_cases he :
        (buildCriterionResult evalRepo evalApp apps c).numerator =
          (buildCriterionResult evalRepo evalApp apps c).denominator
    · rw [hn, hd] at he
      have hall := countP_eq_forall
        (fun u => u.status == Status.pass)
        (fun u => !(u.status == Status.skip))
        (buildCriterionResult evalRepo evalApp apps c).unitResults
        (fun a _ ha => pass_pred_imp_nonskip a ha) he
      have := hall u hu (nonskip_pred_of_ne u hns)
      simpa using this
    · simp [he] at hs

/-- Witness for C1 at a two-app criterion with one passing and one
failing unit. -/
theorem criterion_reduction_rule_witness :
    wResult.denominator =
        (wResult.unitResults.countP fun u => !(u.status == Status.skip))
    ∧ wResult.numerator =
        (wResult.unitResults.countP fun u => u.status == Status.pass)
    ∧ wResult.status = (if wResult.denominator = 0 then Status.skip
        else if wResult.numerator = wResult.denominator then Status.pass
        else Status.fail)
    ∧ (wResult.status = Status.pass →
        ∀ u ∈ wResult.unitResults, u.status ≠ Status.skip →
          u.status = Status.pass) :=
  criterion_reduction_rule wRepoEval wAppEval wApps [wCrit] wResult
    (by decide)

/-- Claim C3: in every produced CriterionResult the numerator is at most
the denominator, the denominator counts the non-skipped unit results, and
the denominator is 0 exactly when the criterion status is skip. -/
theorem criterion_result_invariants
    (evalRepo : String → List EvalUnitResult)
    (evalApp : App → String → EvalUnitResult)
    (apps : List App) (criteria : List Criterion)
    (r : CriterionResult)
    (hr : r ∈ evaluateAll evalRepo evalApp apps criteria) :
    r.numerator ≤ r.denominator
    ∧ r.denominator =
        (r.unitResults.countP fun u => !(u.status == Status.skip))
    ∧ (r.denominator = 0 ↔ r.status = Status.skip) := by
  simp only [evaluateAll, List.mem_map] at hr
  obtain ⟨c, hc, rfl⟩ := hr
  have hd := build_denom evalRepo evalApp apps c
  have hn := build_num evalRepo evalApp apps c
  have hs := build_status evalRepo evalApp apps c
  refine ⟨?_, hd, ?_, ?_⟩
  · rw [hn, hd]
    exact List.countP_mono_left fun a _ => pass_pred_imp_nonskip a
  · intro h0
    rw [hs, if_pos h0]
  · intro hskip
    by_contra h0
    rw [hs, if_neg h0] at hskip
    by_cases he :
        (buildCriterionResult evalRepo evalApp apps c).numerator =
          (buildCriterionResult evalRepo evalApp apps c).denominator
    · rw [if_pos he] at hskip
      exact Status.noConfusion hskip
    · rw [if_neg he] at hskip
      exact Status.noConfusion hskip

/-- Witness for C3 at the same concrete run. -/
theorem criterion_result_invariants_witness :
    wResult.numerator ≤ wResult.denominator
    ∧ wResult.denominator =
        (wResult.unitResults.countP fun u => !(u.status == Status.skip))
    ∧ (wResult.denominator = 0 ↔ wResult.status = Status.skip) :=
  criterion_result_invariants wRepoEval wAppEval wApps [wCrit] wResult
    (by decide)

/-- Claim C2: the level achieved is computed by gated progression:
every level strictly below it has evaluable criteria and a pass
percentage of at least 80, and when the achieved level is at most 4 that
level itself fails the gate (no evaluable criteria, or under 80
percent) — so a later level cannot compensate for an earlier one. -/
theorem level_gated_progression (rs : List CriterionResult) :
    (1 ≤ levelAchievedOf rs ∧ levelAchievedOf rs ≤ 5)
    ∧ (∀ L, 1 ≤ L → L < levelAchievedOf rs →
        0 < levelTotalCount rs L ∧ 80 ≤ levelPercent rs L)
    ∧ (levelAchievedOf rs ≤ 4 →
        ¬(0 < levelTotalCount rs (levelAchievedOf rs) ∧
          80 ≤ levelPercent rs (levelAchievedOf rs))) := by
  rw [levelAchievedOf_eq rs]
  split_ifs with h1 h2 h3 h4 h5 h6 h7 h8 <;>
    refine ⟨⟨by omega, by omega⟩, ?_, ?_⟩ <;>
    try (intro L hL1 hL2; interval_cases L <;>
      exact ⟨by omega, by assumption⟩)
  all_goals
    intro _ hcontra
    rcases hcontra with ⟨ha, hb⟩
    omega

/-- Witness for C2: levels 1 to 3 at 100 percent and level 4 at 40
percent give achieved level 4, with the gate conditions as stated. -/
theorem level_gated_progression_witness :
    (1 ≤ levelAchievedOf wLevels ∧ levelAchievedOf wLevels ≤ 5)
    ∧ (∀ L, 1 ≤ L → L < levelAchievedOf wLevels →
        0 < levelTotalCount wLevels L ∧ 80 ≤ levelPercent wLevels L)
    ∧ (levelAchievedOf wLevels ≤ 4 →
        ¬(0 < levelTotalCount wLevels (levelAchievedOf wLevels) ∧
          80 ≤ levelPercent wLevels (levelAchievedOf wLevels))) :=
  level_gated_progression wLevels

/-- The percentage of a level is monotone in its pass count when the
totals agree. -/
lemma levelPercent_mono (rs rt : List CriterionResult) (L : Nat)
    (ht : levelTotalCount rs L = levelTotalCount rt L)
    (hp : levelPassCount rs L ≤ levelPassCount rt L) :
    levelPercent rs L ≤ levelPercent rt L := by
  unfold levelPercent
  rw [ht]
  split_ifs with h0
  · exact le_refl 0
  · exact pctRound_mono hp

set_option maxHeartbeats 1000000 in
/-- Claim C8: flipping one criterion between fail and pass keeps every
per-level total unchanged and moves the achieved level monotonically:
the run with the criterion failing achieves at most what the run with it
passing achieves. -/
theorem level_achieved_monotone (l t : List CriterionResult)
    (c : CriterionResult) :
    levelAchievedOf (l ++ [{ c with status := Status.fail }] ++ t) ≤
      levelAchievedOf (l ++ [{ c with status := Status.pass }] ++ t)
    ∧ ∀ L, levelTotalCount (l ++ [{ c with status := Status.fail }] ++ t) L =
        levelTotalCount (l ++ [{ c with status := Status.pass }] ++ t) L := by
  have hT : ∀ L,
      levelTotalCount (l ++ [{ c with status := Status.fail }] ++ t) L =
        levelTotalCount (l ++ [{ c with status := Status.pass }] ++ t) L := by
    intro L
    simp [levelTotalCount, List.countP_append, List.countP_cons]
  have hP : ∀ L,
      levelPassCount (l ++ [{ c with status := Status.fail }] ++ t) L ≤
        levelPassCount (l ++ [{ c with status := Status.pass }] ++ t) L := by
    intro L
    simp only [levelPassCount, List.countP_append, List.countP_cons]
    split_ifs <;> simp_all
  have hPct : ∀ L,
      levelPercent (l ++ [{ c with status := Status.fail }] ++ t) L ≤
        levelPercent (l ++ [{ c with status := Status.pass }] ++ t) L :=
    fun L => levelPercent_mono _ _ L (hT L) (hP L)
  refine ⟨?_, hT⟩
  have p1 := hPct 1
  have p2 := hPct 2
  have p3 := hPct 3
  have p4 := hPct 4
  have t1 := hT 1
  have t2 := hT 2
  have t3 := hT 3
  have t4 := hT 4
  rw [levelAchievedOf_eq, levelAchievedOf_eq, t1, t2, t3, t4]
  split_ifs <;> omega

/-- Witness for C8 at a concrete three-criterion run. -/
theorem level_achieved_monotone_witness :
    levelAchievedOf
        ([sampleCR "a" "P" 1 1 Status.pass] ++
          [{ sampleCR "x" "P" 1 1 Status.pass with status := Status.fail }] ++
          [sampleCR "b" "P" 2 1 Status.pass]) ≤
      levelAchievedOf
        ([sampleCR "a" "P" 1 1 Status.pass] ++
          [{ sampleCR "x" "P" 1 1 Status.pass with status := Status.pass }] ++
          [sampleCR "b" "P" 2 1 Status.pass])
    ∧ ∀ L,
        levelTotalCount
          ([sampleCR "a" "P" 1 1 Status.pass] ++
            [{ sampleCR "x" "P" 1 1 Status.pass with status := Status.fail }] ++
            [sampleCR "b" "P" 2 1 Status.pass]) L =
        levelTotalCount
          ([sampleCR "a" "P" 1 1 Status.pass] ++
            [{ sampleCR "x" "P" 1 1 Status.pass with status := Status.pass }] ++
            [sampleCR "b" "P" 2 1 Status.pass]) L :=
  level_achieved_monotone [sampleCR "a" "P" 1 1 Status.pass]
    [sampleCR "b" "P" 2 1 Status.pass] (sampleCR "x" "P" 1 1 Status.pass)

/-- Claim C5: every pillar score and every level score reports
passed and total as the pass and non-skip counts of its own pillar or
level, and percent as round(100 * passed / total) for a positive total
and 0 for an empty one. -/
theorem score_percent_formula (rs : List CriterionResult) :
    (∀ e ∈ computePillarScores rs,
        e.passed =
          (rs.countP fun r => r.pillar == e.pillar && r.status == Status.pass)
        ∧ e.total =
          (rs.countP fun r => r.pillar == e.pillar && !(r.status == Status.skip))
        ∧ e.percent = (if e.total = 0 then 0 else pctRound e.passed e.total))
    ∧ (∀ e ∈ computeLevelScores rs,
        e.passed =
          (rs.countP fun r => r.level == e.level && r.status == Status.pass)
        ∧ e.total =
          (rs.countP fun r => r.level == e.level && !(r.status == Status.skip))
        ∧ e.percent = (if e.total = 0 then 0 else pctRound e.passed e.total)) := by
  constructor
  · intro e he
    simp only [computePillarScores, List.mem_mergeSort, List.mem_map] at he
    obtain ⟨p, hp, rfl⟩ := he
    exact ⟨rfl, rfl, rfl⟩
  · intro e he
    simp only [computeLevelScores, List.mem_map] at he
    obtain ⟨lvl, hl, rfl⟩ := he
    exact ⟨rfl, rfl, rfl⟩

/-- Witness for C5 at the concrete run wLevels. -/
theorem score_percent_formula_witness :
    (∀ e ∈ computePillarScores wLevels,
        e.passed =
          (wLevels.countP fun r => r.pillar == e.pillar && r.status == Status.pass)
        ∧ e.total =
          (wLevels.countP fun r =>
            r.pillar == e.pillar && !(r.status == Status.skip))
        ∧ e.percent = (if e.total = 0 then 0 else pctRound e.passed e.total))
    ∧ (∀ e ∈ computeLevelScores wLevels,
        e.passed =
          (wLevels.countP fun r => r.level == e.level && r.status == Status.pass)
        ∧ e.total =
          (wLevels.countP fun r =>
            r.level == e.level && !(r.status == Status.skip))
        ∧ e.percent = (if e.total = 0 then 0 else pctRound e.passed e.total)) :=
  score_percent_formula wLevels

/-- Claim C6: the opportunities list is the top n of the failing criteria,
ordered by weight descending, then level, pillar name and id ascending. -/
theorem opportunities_spec (rs : List CriterionResult) (n : Nat) :
    (∀ r ∈ pickOpportunities rs n, r.status = Status.fail)
    ∧ (pickOpportunities rs n).length ≤ n
    ∧ (∃ l : List CriterionResult,
        l.Perm (rs.filter fun r => r.status == Status.fail)
        ∧ l.Pairwise (fun a b =>
            b.weight < a.weight ∨ (a.weight = b.weight ∧
              (a.level < b.level ∨ (a.level = b.level ∧
                (a.pillar < b.pillar ∨
                  (a.pillar = b.pillar ∧ a.id ≤ b.id))))))
        ∧ pickOpportunities rs n = l.take n) := by
  refine ⟨?_, ?_, ?_⟩
  · intro r hr
    have h1 : r ∈ (rs.filter fun r => r.status == Status.fail).mergeSort oppLE :=
      List.mem_of_mem_take hr
    have h2 : r ∈ rs.filter fun r => r.status == Status.fail :=
      List.mem_mergeSort.mp h1
    have := List.of_mem_filter h2
    simpa using this
  · exact List.length_take_le n _
  · refine ⟨(rs.filter fun r => r.status == Status.fail).mergeSort oppLE,
      List.mergeSort_perm _ _, ?_, ?_⟩
    · have hs := List.sorted_mergeSort oppLE_trans oppLE_total
        (rs.filter fun r => r.status == Status.fail)
      exact hs.imp fun {a b} hab => (oppLE_iff a b).mp hab
    · rfl

/-- Witness for C6: two failing criteria of weights 5 and 2. -/
theorem opportunities_spec_witness :
    (∀ r ∈ pickOpportunities
        [sampleCR "a" "P" 1 2 Status.fail, sampleCR "b" "Q" 3 5 Status.fail] 3,
      r.status = Status.fail)
    ∧ (pickOpportunities
        [sampleCR "a" "P" 1 2 Status.fail, sampleCR "b" "Q" 3 5 Status.fail]
        3).length ≤ 3
    ∧ (∃ l : List CriterionResult,
        l.Perm
          (List.filter (fun r => r.status == Status.fail)
            [sampleCR "a" "P" 1 2 Status.fail, sampleCR "b" "Q" 3 5 Status.fail])
        ∧ l.Pairwise (fun a b =>
            b.weight < a.weight ∨ (a.weight = b.weight ∧
              (a.level < b.level ∨ (a.level = b.level ∧
                (a.pillar < b.pillar ∨
                  (a.pillar = b.pillar ∧ a.id ≤ b.id))))))
        ∧ pickOpportunities
            [sampleCR "a" "P" 1 2 Status.fail, sampleCR "b" "Q" 3 5 Status.fail]
            3 = l.take 3) :=
  opportunities_spec
    [sampleCR "a" "P" 1 2 Status.fail, sampleCR "b" "Q" 3 5 Status.fail] 3

/-- Claim C7: the action-items list is empty at achieved level 5, and
otherwise projects the top n failing criteria of the blocking level (the
achieved level itself), ordered by weight descending then pillar name and
id ascending. -/
theorem action_items_spec (rs : List CriterionResult) (lv n : Nat) :
    (5 ≤ lv → pickActionItems rs lv n = [])
    ∧ (pickActionItems rs lv n).length ≤ n
    ∧ (lv < 5 → ∃ l : List CriterionResult,
        l.Perm (rs.filter fun r => r.level == lv && r.status == Status.fail)
        ∧ l.Pairwise (fun a b =>
            b.weight < a.weight ∨ (a.weight = b.weight ∧
              (a.pillar < b.pillar ∨ (a.pillar = b.pillar ∧ a.id ≤ b.id))))
        ∧ pickActionItems rs lv n = (l.take n).map toActionItem) := by
  refine ⟨?_, ?_, ?_⟩
  · intro h
    simp [pickActionItems, h]
  · by_cases h : 5 ≤ lv
    · simp [pickActionItems, h]
    · simp only [pickActionItems, if_neg h, List.length_map]
      exact List.length_take_le n _
  · intro h
    have hn : ¬5 ≤ lv := by omega
    refine ⟨(rs.filter fun r =>
        r.level == lv && r.status == Status.fail).mergeSort actionLE,
      List.mergeSort_perm _ _, ?_, ?_⟩
    · have hs := List.sorted_mergeSort actionLE_trans actionLE_total
        (rs.filter fun r => r.level == lv && r.status == Status.fail)
      exact hs.imp fun {a b} hab => (actionLE_iff a b).mp hab
    · simp [pickActionItems, if_neg hn]

/-- Witness for C7: the empty-at-5 case and the blocking-level case on a
two-criterion run. -/
theorem action_items_spec_witness :
    (5 ≤ 1 →
        pickActionItems
          [sampleCR "a" "P" 1 2 Status.fail, sampleCR "b" "Q" 1 5 Status.fail]
          1 3 = [])
    ∧ (pickActionItems
        [sampleCR "a" "P" 1 2 Status.fail, sampleCR "b" "Q" 1 5 Status.fail]
        1 3).length ≤ 3
    ∧ (1 < 5 → ∃ l : List CriterionResult,
        l.Perm
          (List.filter (fun r => r.level == 1 && r.status == Status.fail)
            [sampleCR "a" "P" 1 2 Status.fail, sampleCR "b" "Q" 1 5 Status.fail])
        ∧ l.Pairwise (fun a b =>
            b.weight < a.weight ∨ (a.weight = b.weight ∧
              (a.pillar < b.pillar ∨ (a.pillar = b.pillar ∧ a.id ≤ b.id))))
        ∧ pickActionItems
            [sampleCR "a" "P" 1 2 Status.fail, sampleCR "b" "Q" 1 5 Status.fail]
            1 3 = (l.take 3).map toActionItem) :=
  action_items_spec
    [sampleCR "a" "P" 1 2 Status.fail, sampleCR "b" "Q" 1 5 Status.fail] 1 3

/-- Claim C4: with no CI system detected (no workflows directory, no
gitlab or azure config) and no coverage config, ci_lint_job, ci_test_job
and coverage_tracking evaluate to skip while ci_configured evaluates to
fail. -/
theorem no_ci_skips_dependents (fs : RepoFS) (now : Int)
    (hw : fs.githubWorkflows = none) (hg : fs.gitlabCI = false)
    (ha : fs.azurePipelines = false) (hc : fs.coveragerc = none) :
    evaluateCriterionRepoM fs now "ci_lint_job" =
      some [makeUnit "repo" Status.skip
        "CI not detected; cannot evaluate lint job." []]
    ∧ evaluateCriterionRepoM fs now "ci_test_job" =
      some [makeUnit "repo" Status.skip
        "CI not detected; cannot evaluate test job." []]
    ∧ evaluateCriterionRepoM fs now "coverage_tracking" =
      some [makeUnit "repo" Status.skip
        "CI not detected; coverage tracking unclear." []]
    ∧ evaluateCriterionRepoM fs now "ci_configured" =
      some [makeUnit "repo" Status.fail "No CI configuration detected." []] := by
  have hci : hasCI fs = false := by
    simp [hasCI, hw, hg, ha]
  have hcov : hasCoverageTracking fs = false := by
    simp [hasCoverageTracking, hw, hc]
  refine ⟨?_, ?_, ?_, ?_⟩ <;>
    simp [evaluateCriterionRepoM, hci, hcov]

/-- Witness for C4 at a fully empty snapshot. -/
theorem no_ci_skips_dependents_witness :
    evaluateCriterionRepoM fsNoCI 0 "ci_lint_job" =
      some [makeUnit "repo" Status.skip
        "CI not detected; cannot evaluate lint job." []]
    ∧ evaluateCriterionRepoM fsNoCI 0 "ci_test_job" =
      some [makeUnit "repo" Status.skip
        "CI not detected; cannot evaluate test job." []]
    ∧ evaluateCriterionRepoM fsNoCI 0 "coverage_tracking" =
      some [makeUnit "repo" Status.skip
        "CI not detected; coverage tracking unclear." []]
    ∧ evaluateCriterionRepoM fsNoCI 0 "ci_configured" =
      some [makeUnit "repo" Status.fail "No CI configuration detected." []] :=
  no_ci_skips_dependents fsNoCI 0 rfl rfl rfl rfl

/-- Counterexample to claim C9 as stated: over one and the same snapshot
the docs_freshness criterion produces different unit results at two
different clock readings, so verdicts are not time-independent. -/
theorem run_results_time_dependent :
    evaluateCriterionRepoM fsDocs 0 "docs_freshness" ≠
      evaluateCriterionRepoM fsDocs 17280000 "docs_freshness" := by
  decide

/-- Claim C9 amended: evaluation is a pure function of the snapshot and
the clock, and every modelled criterion other than docs_freshness is
independent of the clock; docs_freshness alone reads the current time. -/
theorem verdicts_time_invariant_except_docs (fs : RepoFS) (t1 t2 : Int)
    (cid : String) (h : cid ≠ "docs_freshness") :
    evaluateCriterionRepoM fs t1 cid = evaluateCriterionRepoM fs t2 cid := by
  by_cases h1 : cid = "ci_configured"
  · simp [evaluateCriterionRepoM, h1]
  · by_cases h2 : cid = "ci_lint_job"
    · simp [evaluateCriterionRepoM, h1, h2]
    · by_cases h3 : cid = "ci_test_job"
      · simp [evaluateCriterionRepoM, h1, h2, h3]
      · by_cases h4 : cid = "coverage_tracking"
        · simp [evaluateCriterionRepoM, h1, h2, h3, h4]
        · simp [evaluateCriterionRepoM, h1, h2, h3, h4, h]

/-- Witness for the amended C9 at a concrete snapshot, two clock values
and a criterion other than docs_freshness. -/
theorem verdicts_time_invariant_except_docs_witness :
    evaluateCriterionRepoM fsDocs 0 "ci_configured" =
      evaluateCriterionRepoM fsDocs 17280000 "ci_configured" :=
  verdicts_time_invariant_except_docs fsDocs 0 17280000 "ci_configured"
    (by decide)

/-- Claim C10: the health_checks criterion never fails a unit: a library
app is skipped, detected signals pass, and absence of signals skips. -/
theorem health_checks_never_fail (app : App) (hasHealth : Bool) :
    ((evaluateHealthChecks app hasHealth).status = Status.pass ∨
      (evaluateHealthChecks app hasHealth).status = Status.skip)
    ∧ (evaluateHealthChecks app hasHealth).status ≠ Status.fail
    ∧ (((app.kind == "python" || app.kind == "node") &&
          strContains (lowerStr app.description) "library") = true →
        (evaluateHealthChecks app hasHealth).status = Status.skip)
    ∧ (((app.kind == "python" || app.kind == "node") &&
          strContains (lowerStr app.description) "library") = false →
        (evaluateHealthChecks app hasHealth).status =
          (if hasHealth then Status.pass else Status.skip)) := by
  by_cases hlib : ((app.kind == "python" || app.kind == "node") &&
      strContains (lowerStr app.description) "library") = true
  · simp [evaluateHealthChecks, hlib, makeUnit]
  · by_cases hh : hasHealth = true
    · simp [evaluateHealthChecks, hlib, hh, makeUnit]
    · simp [evaluateHealthChecks, hlib, hh, makeUnit]

/-- Witness for C10 at a concrete service app with detected signals. -/
theorem health_checks_never_fail_witness :
    ((evaluateHealthChecks (App.mk "svc" "go" "svc" "service") true).status =
        Status.pass ∨
      (evaluateHealthChecks (App.mk "svc" "go" "svc" "service") true).status =
        Status.skip)
    ∧ (evaluateHealthChecks (App.mk "svc" "go" "svc" "service") true).status ≠
        Status.fail
    ∧ ((((App.mk "svc" "go" "svc" "service").kind == "python" ||
          (App.mk "svc" "go" "svc" "service").kind == "node") &&
          strContains
            (lowerStr (App.mk "svc" "go" "svc" "service").description)
            "library") = true →
        (evaluateHealthChecks (App.mk "svc" "go" "svc" "service") true).status =
          Status.skip)
    ∧ ((((App.mk "svc" "go" "svc" "service").kind == "python" ||
          (App.mk "svc" "go" "svc" "service").kind == "node") &&
          strContains
            (lowerStr (App.mk "svc" "go" "svc" "service").description)
            "library") = false →
        (evaluateHealthChecks (App.mk "svc" "go" "svc" "service") true).status =
          (if true then Status.pass else Status.skip)) :=
  health_checks_never_fail (App.mk "svc" "go" "svc" "service") true

end AgentReadiness
